import Mathlib

/-!
Verification of the event translation and routing core of
`org/acmsl/artifact/licdata/application/licdata_artifact_app.py`.

A Python option dictionary is embedded as an association list of
string keys and string values with unique keys; `dict.get(k, None)`
becomes an `Option String`-valued lookup; the f-string interpolation
of a possibly-`None` variable becomes `pyStr`.
-/

namespace LicdataArtifactApp

/-- A Python dict of request options: association list from string keys to
string values (a key absent from the list models an absent option). -/
abbrev Options := List (String × String)

/-- Python `options.get(k, None)`: the value bound to `k`, or `none`. -/
def getOpt (options : Options) (k : String) : Option String :=
  (options.find? (fun kv => kv.1 == k)).map (fun kv => kv.2)

/-- Python `str()` coercion applied by f-string interpolation to a
possibly-`None` value: `None` renders as the literal string "None". -/
def pyStr : Option String → String
  | none => "None"
  | some s => s

/-- The key exclusion list hard-coded in
`_build_docker_image_event_metadata` (lines 177-180 of the source). -/
def exclusionSet : List String := ["image_version", "docker_registry_url"]

/-- `LicdataArtifactApp._build_docker_image_event_metadata`: starts from an
empty result, iterates over the items of `options` and copies every
binding whose key is not in the exclusion list (source lines 169-183). -/
def build_docker_image_event_metadata (options : Options) : Options :=
  options.foldl
    (fun result kv =>
      if kv.1 ∈ exclusionSet then result else result ++ [kv])
    []

/-- Lookup at a head pair whose key matches. -/
lemma getOpt_cons_of_eq (kv : String × String) (tl : Options) (k : String)
    (h : kv.1 = k) : getOpt (kv :: tl) k = some kv.2 := by
  unfold getOpt
  rw [List.find?_cons_of_pos _ (by simpa using h)]
  rfl

/-- Lookup skips a head pair whose key differs. -/
lemma getOpt_cons_of_ne (kv : String × String) (tl : Options) (k : String)
    (h : kv.1 ≠ k) : getOpt (kv :: tl) k = getOpt tl k := by
  unfold getOpt
  rw [List.find?_cons_of_neg _ (by simpa using h)]

/-- The accumulating loop of the sanitizer is a filter on the key. -/
lemma build_metadata_foldl (l : Options) (acc : Options) :
    l.foldl
      (fun result kv =>
        if kv.1 ∈ exclusionSet then result else result ++ [kv])
      acc
    = acc ++ l.filter (fun kv => kv.1 ∉ exclusionSet) := by
  induction l generalizing acc with
  | nil => simp
  | cons kv tl ih =>
    rw [List.foldl_cons, List.filter_cons]
    by_cases h : kv.1 ∈ exclusionSet
    · rw [if_pos h, if_neg (by simpa using h), ih]
    · rw [if_neg h, if_pos (by simpa using h), ih]
      simp

/-- Closed form of the sanitizer. -/
lemma build_metadata_eq_filter (options : Options) :
    build_docker_image_event_metadata options
      = options.filter (fun kv => kv.1 ∉ exclusionSet) := by
  simpa using build_metadata_foldl options []

/-- The keys of the sanitizer's output are the input keys with the
excluded ones removed. -/
lemma metadata_keys (options : Options) :
    (build_docker_image_event_metadata options).map Prod.fst
      = (options.map Prod.fst).filter (fun k => k ∉ exclusionSet) := by
  rw [build_metadata_eq_filter]
  induction options with
  | nil => rfl
  | cons kv tl ih =>
    rw [List.map_cons, List.filter_cons, List.filter_cons]
    by_cases h : kv.1 ∈ exclusionSet
    · rw [if_neg (by simpa using h), if_neg (by simpa using h), ih]
    · rw [if_pos (by simpa using h), if_pos (by simpa using h),
        List.map_cons, ih]

/-- Lookup of a non-excluded key is unchanged by the sanitizer. -/
lemma metadata_getOpt (options : Options) (k : String)
    (hk : k ∉ exclusionSet) :
    getOpt (build_docker_image_event_metadata options) k
      = getOpt options k := by
  rw [build_metadata_eq_filter]
  induction options with
  | nil => rfl
  | cons kv tl ih =>
    rw [List.filter_cons]
    by_cases h : kv.1 = k
    · have hkv : kv.1 ∉ exclusionSet := by rw [h]; exact hk
      rw [if_pos (by simpa using hkv), getOpt_cons_of_eq kv _ k h,
        getOpt_cons_of_eq kv tl k h]
    · rw [getOpt_cons_of_ne kv tl k h]
      by_cases hx : kv.1 ∈ exclusionSet
      · rw [if_neg (by simpa using hx)]
        exact ih
      · rw [if_pos (by simpa using hx), getOpt_cons_of_ne kv _ k h]
        exact ih

/-- C1: for every options mapping, `_build_docker_image_event_metadata`
returns a mapping whose keys are exactly the input keys minus the
exclusion set, every surviving key keeps its original value, and the
empty mapping yields the empty mapping. -/
theorem sanitize_keys_exact (options : Options) (k : String)
    (hk : k ∉ exclusionSet) :
    (build_docker_image_event_metadata options).map Prod.fst
      = (options.map Prod.fst).filter (fun x => x ∉ exclusionSet)
  ∧ getOpt (build_docker_image_event_metadata options) k = getOpt options k
  ∧ build_docker_image_event_metadata [] = [] :=
  ⟨metadata_keys options, metadata_getOpt options k hk, rfl⟩

/-- Witness for C1 at a concrete mapping and key. -/
theorem sanitize_keys_exact_witness :
    "variant" ∉ exclusionSet
  ∧ ((build_docker_image_event_metadata
        [("variant", "slim"), ("image_version", "1.0")]).map Prod.fst
      = (([("variant", "slim"), ("image_version", "1.0")] :
          Options).map Prod.fst).filter (fun x => x ∉ exclusionSet)
    ∧ getOpt (build_docker_image_event_metadata
        [("variant", "slim"), ("image_version", "1.0")]) "variant"
      = getOpt [("variant", "slim"), ("image_version", "1.0")] "variant"
    ∧ build_docker_image_event_metadata [] = []) :=
  ⟨by decide,
   sanitize_keys_exact [("variant", "slim"), ("image_version", "1.0")]
     "variant" (by decide)⟩

/-- The `DockerImageRequested` domain event, with the fields the acceptor
passes to its constructor (source lines 132-136). -/
structure DockerImageRequested where
  image_name : String
  image_version : Option String
  metadata : Options
deriving DecidableEq, Repr

/-- The `DockerImagePushRequested` domain event, with the fields the
acceptor passes to its constructor (source lines 157-163). -/
structure DockerImagePushRequested where
  image_name : String
  image_version : Option String
  image_url : String
  docker_registry_url : Option String
  metadata : Options
deriving DecidableEq, Repr

/-- Event-construction core of
`LicdataArtifactApp.accept_docker_image_requested` (source lines
125-137): builds the metadata, reads `image_version`, `variant`,
`python_version` (and `azure_base_version`, which is read but unused),
derives the image name by f-string interpolation, and constructs the
`DockerImageRequested` event. -/
def translate_image_requested (options : Options) : DockerImageRequested :=
  let metadata := build_docker_image_event_metadata options
  let image_version := getOpt options "image_version"
  let variant := getOpt options "variant"
  let python_version := getOpt options "python_version"
  let _azure_base_version := getOpt options "azure_base_version"
  let image_name :=
    "licdata-" ++ pyStr variant ++ "-python" ++ pyStr python_version
  { image_name := image_name
    image_version := image_version
    metadata := metadata }

/-- Event-construction core of
`LicdataArtifactApp.accept_docker_image_push_requested` (source lines
148-164): same derivations plus `docker_registry_url` and the
f-string-derived `image_url`. -/
def translate_image_push_requested (options : Options) :
    DockerImagePushRequested :=
  let metadata := build_docker_image_event_metadata options
  let image_version := getOpt options "image_version"
  let docker_registry_url := getOpt options "docker_registry_url"
  let variant := getOpt options "variant"
  let python_version := getOpt options "python_version"
  let _azure_base_version := getOpt options "azure_base_version"
  let image_name :=
    "licdata-" ++ pyStr variant ++ "-python" ++ pyStr python_version
  let image_url :=
    pyStr docker_registry_url ++ "/" ++ image_name ++ ":"
      ++ pyStr image_version
  { image_name := image_name
    image_version := image_version
    image_url := image_url
    docker_registry_url := docker_registry_url
    metadata := metadata }

/-- The concrete options mapping of the spec's build example. -/
def exampleBuildOptions : Options :=
  [("variant", "slim"), ("python_version", "3.12"), ("image_version", "1.0")]

/-- The concrete options mapping of the spec's push example. -/
def examplePushOptions : Options :=
  [("variant", "slim"), ("python_version", "3.12"),
   ("image_version", "1.0"),
   ("docker_registry_url", "registry.example.com")]

/-- C2: `accept_docker_image_requested` builds a `DockerImageRequested`
event whose `image_version` is the (possibly absent) `image_version`
option, whose `image_name` is the concatenation
`"licdata-" + variant + "-python" + python_version`, and whose metadata
is the sanitized options; on the spec's example the image name is
`"licdata-slim-python3.12"`, the version is `"1.0"` and the metadata
has no `image_version` key. -/
theorem translate_image_requested_spec (options : Options) :
    ((translate_image_requested options).image_version
        = getOpt options "image_version"
    ∧ (translate_image_requested options).image_name
        = "licdata-" ++ pyStr (getOpt options "variant") ++ "-python"
            ++ pyStr (getOpt options "python_version")
    ∧ (translate_image_requested options).metadata
        = build_docker_image_event_metadata options)
  ∧ ((translate_image_requested exampleBuildOptions).image_name
        = "licdata-slim-python3.12"
    ∧ (translate_image_requested exampleBuildOptions).image_version
        = some "1.0"
    ∧ getOpt (translate_image_requested exampleBuildOptions).metadata
        "image_version" = none) :=
  ⟨⟨rfl, rfl, rfl⟩, ⟨by decide, by decide, by decide⟩⟩

/-- C3: `accept_docker_image_push_requested` derives `image_name` and
`image_version` exactly as the build acceptor does, additionally derives
`image_url = docker_registry_url + "/" + image_name + ":" +
image_version`, and uses the same metadata exclusion; on the spec's
example the url is `"registry.example.com/licdata-slim-python3.12:1.0"`
and the metadata has neither excluded key. -/
theorem translate_image_push_requested_spec (options : Options) :
    ((translate_image_push_requested options).image_name
        = (translate_image_requested options).image_name
    ∧ (translate_image_push_requested options).image_version
        = (translate_image_requested options).image_version
    ∧ (translate_image_push_requested options).image_url
        = pyStr (getOpt options "docker_registry_url") ++ "/"
            ++ (translate_image_push_requested options).image_name ++ ":"
            ++ pyStr (getOpt options "image_version")
    ∧ (translate_image_push_requested options).metadata
        = build_docker_image_event_metadata options
    ∧ (translate_image_push_requested options).metadata
        = (translate_image_requested options).metadata)
  ∧ ((translate_image_push_requested examplePushOptions).image_url
        = "registry.example.com/licdata-slim-python3.12:1.0"
    ∧ getOpt (translate_image_push_requested examplePushOptions).metadata
        "image_version" = none
    ∧ getOpt (translate_image_push_requested examplePushOptions).metadata
        "docker_registry_url" = none) :=
  ⟨⟨rfl, rfl, rfl, rfl, rfl⟩, ⟨by decide, by decide, by decide⟩⟩

/-- The emission loop `for event in events: await self.emit(event)`
(source lines 139-140 and 166-167), recorded as the ordered trace of
`emit` calls: each iteration appends one publish call to the trace. -/
def emitAll {α : Type} (events : List α) : List α :=
  events.foldl (fun emitted e => emitted ++ [e]) []

/-- `LicdataArtifactApp.accept_docker_image_requested`, parameterized by
the injected domain handler `LicdataArtifact.listen_DockerImageRequested`;
the value is the ordered trace of `emit` calls the acceptor performs. -/
def accept_docker_image_requested {α : Type}
    (handler : DockerImageRequested → List α) (options : Options) :
    List α :=
  emitAll (handler (translate_image_requested options))

/-- `LicdataArtifactApp.accept_docker_image_push_requested`, parameterized
by the injected handler `LicdataArtifact.listen_DockerImagePushRequested`;
the value is the ordered trace of `emit` calls the acceptor performs. -/
def accept_docker_image_push_requested {α : Type}
    (handler : DockerImagePushRequested → List α) (options : Options) :
    List α :=
  emitAll (handler (translate_image_push_requested options))

/-- The emission loop publishes each event once, in order. -/
lemma emitAll_eq {α : Type} (events : List α) : emitAll events = events := by
  unfold emitAll
  suffices h : ∀ acc : List α,
      events.foldl (fun emitted e => emitted ++ [e]) acc = acc ++ events by
    simpa using h []
  induction events with
  | nil => intro acc; simp
  | cons e tl ih =>
    intro acc
    rw [List.foldl_cons, ih]
    simp

/-- C4: for any injected handlers and any options, the trace of `emit`
calls each acceptor performs is exactly the sequence of events the
domain handler returned — same length (one publish per returned event)
and same order; a handler returning the empty sequence yields an empty
trace. -/
theorem router_emits_in_order {α : Type}
    (handler : DockerImageRequested → List α)
    (pushHandler : DockerImagePushRequested → List α)
    (options : Options) :
    accept_docker_image_requested handler options
        = handler (translate_image_requested options)
  ∧ (accept_docker_image_requested handler options).length
        = (handler (translate_image_requested options)).length
  ∧ accept_docker_image_push_requested pushHandler options
        = pushHandler (translate_image_push_requested options)
  ∧ (accept_docker_image_push_requested pushHandler options).length
        = (pushHandler (translate_image_push_requested options)).length
  ∧ emitAll ([] : List α) = [] :=
  ⟨emitAll_eq _, by rw [accept_docker_image_requested, emitAll_eq],
   emitAll_eq _, by rw [accept_docker_image_push_requested, emitAll_eq],
   rfl⟩

/-- The dbus bus types used by the `@enable` decorators. -/
inductive BusKind
  | SYSTEM
  | SESSION
deriving DecidableEq, Repr

/-- The inbound dbus event classes registered on the signal listener. -/
inductive ListenerEventClass
  | DbusDockerImageRequested
  | DbusDockerImagePushRequested
  | DbusCredentialProvided
deriving DecidableEq, Repr

/-- The outbound dbus event classes registered on the signal emitter. -/
inductive EmitterEventClass
  | DbusCredentialRequested
  | DbusDockerImageAvailable
  | DbusDockerImagePushed
deriving DecidableEq, Repr

/-- One entry of an `@enable` decorator: an event class bound to a bus
type. -/
structure EnableEntry (ε : Type) where
  event_class : ε
  bus_type : BusKind
deriving DecidableEq, Repr

/-- The inbound routing table: the `events` list of the
`@enable(LicdataArtifactDbusSignalListener, ...)` decorator applied at
class-definition time (source lines 52-68). -/
def listenerEvents : List (EnableEntry ListenerEventClass) :=
  [⟨.DbusDockerImageRequested, .SYSTEM⟩,
   ⟨.DbusDockerImagePushRequested, .SYSTEM⟩,
   ⟨.DbusCredentialProvided, .SYSTEM⟩]

/-- The outbound routing table: the `events` list of the
`@enable(LicdataArtifactDbusSignalEmitter, ...)` decorator applied at
class-definition time (source lines 69-85). -/
def emitterEvents : List (EnableEntry EmitterEventClass) :=
  [⟨.DbusCredentialRequested, .SYSTEM⟩,
   ⟨.DbusDockerImageAvailable, .SYSTEM⟩,
   ⟨.DbusDockerImagePushed, .SYSTEM⟩]

/-- C5: the routing tables are the fixed decorator literals: exactly
three distinct inbound event kinds (Docker image requested, Docker image
push requested, credential provided) and exactly three distinct outbound
event kinds (credential requested, Docker image available, Docker image
pushed), every entry bound to the system bus; being closed definitions
applied at class-definition time, no entry is added, removed or rescoped
afterwards. -/
theorem routing_table_static :
    listenerEvents.map EnableEntry.event_class
        = [.DbusDockerImageRequested, .DbusDockerImagePushRequested,
           .DbusCredentialProvided]
  ∧ (listenerEvents.map EnableEntry.event_class).Nodup
  ∧ listenerEvents.length = 3
  ∧ listenerEvents.all (fun e => e.bus_type == BusKind.SYSTEM) = true
  ∧ emitterEvents.map EnableEntry.event_class
        = [.DbusCredentialRequested, .DbusDockerImageAvailable,
           .DbusDockerImagePushed]
  ∧ (emitterEvents.map EnableEntry.event_class).Nodup
  ∧ emitterEvents.length = 3
  ∧ emitterEvents.all (fun e => e.bus_type == BusKind.SYSTEM) = true := by
  refine ⟨rfl, ?_, rfl, rfl, rfl, ?_, rfl, rfl⟩ <;> decide

/-- C7: translation is deterministic: running either translator twice on
the same options yields structurally equal events — the construction
reads only the options, with no hidden counter or timestamp, so the two
runs agree on every field. -/
theorem translation_deterministic (options₁ options₂ : Options)
    (h : options₁ = options₂) :
    translate_image_requested options₁ = translate_image_requested options₂
  ∧ translate_image_push_requested options₁
      = translate_image_push_requested options₂ :=
  ⟨by rw [h], by rw [h]⟩

/-- Witness for C7: two textually separate runs on the example options
produce structurally equal events. -/
theorem translation_deterministic_witness :
    exampleBuildOptions = exampleBuildOptions
  ∧ (translate_image_requested exampleBuildOptions
        = translate_image_requested exampleBuildOptions
    ∧ translate_image_push_requested exampleBuildOptions
        = translate_image_push_requested exampleBuildOptions) :=
  ⟨rfl, translation_deterministic exampleBuildOptions exampleBuildOptions rfl⟩

/-- A Python runtime error that dictionary access can raise. -/
inductive PyError
  | KeyError (k : String)
deriving DecidableEq, Repr

/-- Python subscription `options[k]`: raises `KeyError` when the key is
absent. The acceptors never use it, but it marks where a translation
could fail if it did. -/
def dictGetItem (options : Options) (k : String) :
    Except PyError String :=
  match getOpt options k with
  | some v => .ok v
  | none => .error (.KeyError k)

/-- Python `options.get(k, None)`: total, never raises. -/
def dictGet (options : Options) (k : String) :
    Except PyError (Option String) :=
  .ok (getOpt options k)

/-- The build acceptor's translation with the possibility of a Python
runtime error made explicit: every option read in the source is
`options.get(..., None)` (source lines 126-129), so each step is the
non-raising `dictGet`. -/
def translate_image_requested_checked (options : Options) :
    Except PyError DockerImageRequested := do
  let metadata := build_docker_image_event_metadata options
  let image_version ← dictGet options "image_version"
  let variant ← dictGet options "variant"
  let python_version ← dictGet options "python_version"
  let _azure_base_version ← dictGet options "azure_base_version"
  let image_name :=
    "licdata-" ++ pyStr variant ++ "-python" ++ pyStr python_version
  pure { image_name := image_name
         image_version := image_version
         metadata := metadata }

/-- The push acceptor's translation with the possibility of a Python
runtime error made explicit (source lines 149-155): each option read is
the non-raising `dictGet`. -/
def translate_image_push_requested_checked (options : Options) :
    Except PyError DockerImagePushRequested := do
  let metadata := build_docker_image_event_metadata options
  let image_version ← dictGet options "image_version"
  let docker_registry_url ← dictGet options "docker_registry_url"
  let variant ← dictGet options "variant"
  let python_version ← dictGet options "python_version"
  let _azure_base_version ← dictGet options "azure_base_version"
  let image_name :=
    "licdata-" ++ pyStr variant ++ "-python" ++ pyStr python_version
  let image_url :=
    pyStr docker_registry_url ++ "/" ++ image_name ++ ":"
      ++ pyStr image_version
  pure { image_name := image_name
         image_version := image_version
         image_url := image_url
         docker_registry_url := docker_registry_url
         metadata := metadata }

/-- C6: for every options mapping — in particular one missing any of
`variant`, `python_version`, `image_version` or `docker_registry_url` —
both translations succeed without raising: every option is read with
`dict.get` defaulting to `None`, so the checked translations always
return `ok`, and an absent value flows into the derived strings as the
`pyStr` placeholder rather than failing the step. -/
theorem translation_never_raises (options : Options) :
    translate_image_requested_checked options
        = Except.ok (translate_image_requested options)
  ∧ translate_image_push_requested_checked options
        = Except.ok (translate_image_push_requested options)
  ∧ (translate_image_requested options).image_name
        = "licdata-" ++ pyStr (getOpt options "variant") ++ "-python"
            ++ pyStr (getOpt options "python_version")
  ∧ (translate_image_push_requested options).image_url
        = pyStr (getOpt options "docker_registry_url") ++ "/"
            ++ (translate_image_push_requested options).image_name ++ ":"
            ++ pyStr (getOpt options "image_version")
  ∧ pyStr none = "None" :=
  ⟨rfl, rfl, rfl, rfl, rfl⟩

/-- A heap of Python dict objects: the index into the list is the object
reference. -/
structure Heap where
  dicts : List Options
deriving DecidableEq, Repr

/-- Dereference a dict object. -/
def Heap.read (h : Heap) (ref : Nat) : Options :=
  h.dicts.getD ref []

/-- `result = \x7b\x7d` followed by the insertions: allocate a fresh dict
object and return its reference. -/
def Heap.alloc (h : Heap) (d : Options) : Heap × Nat :=
  (⟨h.dicts ++ [d]⟩, h.dicts.length)

/-- `_build_docker_image_event_metadata` at the object level: it reads
the dict at `ref`, allocates a fresh `result` dict, and fills it with
the non-excluded bindings; the input object is only read. -/
def build_metadata_heap (h : Heap) (ref : Nat) : Heap × Nat :=
  h.alloc (build_docker_image_event_metadata (h.read ref))

/-- C8: metadata construction is side-effect-free on its input: after
the call, every pre-existing dict object — the input `options` in
particular — holds exactly the bindings it held before, and the result
is a freshly allocated object, not an alias of the input. -/
theorem sanitize_frame (h : Heap) (ref : Nat)
    (href : ref < h.dicts.length) :
    (build_metadata_heap h ref).1.read ref = h.read ref
  ∧ (∀ r, r < h.dicts.length →
      (build_metadata_heap h ref).1.read r = h.read r)
  ∧ (build_metadata_heap h ref).2 ≠ ref
  ∧ (build_metadata_heap h ref).1.read (build_metadata_heap h ref).2
      = build_docker_image_event_metadata (h.read ref) := by
  refine ⟨?_, ?_, ?_, ?_⟩
  · exact List.getD_append _ _ _ _ href
  · intro r hr
    exact List.getD_append _ _ _ _ hr
  · exact fun hcontra => absurd (hcontra ▸ href) (lt_irrefl _)
  · show (h.dicts ++ [_]).getD h.dicts.length [] = _
    rw [List.getD_append_right _ _ _ _ le_rfl]
    simp

/-- Witness for C8 on a one-object heap. -/
theorem sanitize_frame_witness :
    0 < (Heap.mk [exampleBuildOptions]).dicts.length
  ∧ (build_metadata_heap (Heap.mk [exampleBuildOptions]) 0).1.read 0
      = (Heap.mk [exampleBuildOptions]).read 0
  ∧ (build_metadata_heap (Heap.mk [exampleBuildOptions]) 0).2 ≠ 0
  ∧ (build_metadata_heap (Heap.mk [exampleBuildOptions]) 0).1.read
        (build_metadata_heap (Heap.mk [exampleBuildOptions]) 0).2
      = build_docker_image_event_metadata
          ((Heap.mk [exampleBuildOptions]).read 0) :=
  ⟨by decide,
   (sanitize_frame (Heap.mk [exampleBuildOptions]) 0 (by decide)).1,
   (sanitize_frame (Heap.mk [exampleBuildOptions]) 0 (by decide)).2.2.1,
   (sanitize_frame (Heap.mk [exampleBuildOptions]) 0 (by decide)).2.2.2⟩

/-- C9: the null-to-string coercion is Python's `str(None)`: when
`variant` and `python_version` are both absent the image name is
literally `"licdata-None-pythonNone"`, and when additionally
`docker_registry_url` and `image_version` are absent the push image url
is literally `"None/licdata-None-pythonNone:None"`. -/
theorem null_coercion_str_none (options : Options)
    (hv : getOpt options "variant" = none)
    (hp : getOpt options "python_version" = none) :
    (translate_image_requested options).image_name
        = "licdata-None-pythonNone"
  ∧ (translate_image_push_requested options).image_name
        = "licdata-None-pythonNone"
  ∧ (getOpt options "docker_registry_url" = none →
      getOpt options "image_version" = none →
      (translate_image_push_requested options).image_url
        = "None/licdata-None-pythonNone:None") := by
  refine ⟨?_, ?_, fun hd hi => ?_⟩ <;>
    simp [translate_image_requested, translate_image_push_requested,
      hv, hp, pyStr]
  simp [hd, hi, pyStr]

/-- Witness for C9: the image-name clauses at a mapping that still holds
an `image_version`, and the image-url clause at the empty mapping. -/
theorem null_coercion_str_none_witness :
    (getOpt [("image_version", "1.0")] "variant" = none
    ∧ getOpt [("image_version", "1.0")] "python_version" = none)
  ∧ ((translate_image_requested [("image_version", "1.0")]).image_name
        = "licdata-None-pythonNone"
    ∧ (translate_image_push_requested
          [("image_version", "1.0")]).image_name
        = "licdata-None-pythonNone")
  ∧ (getOpt [] "docker_registry_url" = none
    ∧ getOpt [] "image_version" = none
    ∧ (translate_image_push_requested []).image_url
        = "None/licdata-None-pythonNone:None") :=
  ⟨⟨by decide, by decide⟩,
   ⟨(null_coercion_str_none [("image_version", "1.0")]
       (by decide) (by decide)).1,
    (null_coercion_str_none [("image_version", "1.0")]
       (by decide) (by decide)).2.1⟩,
   ⟨rfl, rfl, (null_coercion_str_none [] rfl rfl).2.2 rfl rfl⟩⟩

/-- C10: noninterference of the remaining options on the events'
first-class fields: two options mappings that agree on `variant`,
`python_version`, `image_version` and `docker_registry_url` produce
events with identical first-class fields — `azure_base_version` (read
but unused) and every other extra option can only reach the event
through the metadata. -/
theorem first_class_fields_noninterference (options₁ options₂ : Options)
    (hv : getOpt options₁ "variant" = getOpt options₂ "variant")
    (hp : getOpt options₁ "python_version"
        = getOpt options₂ "python_version")
    (hi : getOpt options₁ "image_version"
        = getOpt options₂ "image_version")
    (hd : getOpt options₁ "docker_registry_url"
        = getOpt options₂ "docker_registry_url") :
    (translate_image_requested options₁).image_name
        = (translate_image_requested options₂).image_name
  ∧ (translate_image_requested options₁).image_version
        = (translate_image_requested options₂).image_version
  ∧ (translate_image_push_requested options₁).image_name
        = (translate_image_push_requested options₂).image_name
  ∧ (translate_image_push_requested options₁).image_version
        = (translate_image_push_requested options₂).image_version
  ∧ (translate_image_push_requested options₁).image_url
        = (translate_image_push_requested options₂).image_url
  ∧ (translate_image_push_requested options₁).docker_registry_url
        = (translate_image_push_requested options₂).docker_registry_url := by
  refine ⟨?_, ?_, ?_, ?_, ?_, ?_⟩ <;>
    simp [translate_image_requested, translate_image_push_requested,
      hv, hp, hi, hd]

/-- Witness for C10: adding an `azure_base_version` option leaves every
first-class field unchanged. -/
theorem first_class_fields_noninterference_witness :
    (getOpt (("azure_base_version", "4") :: examplePushOptions) "variant"
        = getOpt examplePushOptions "variant"
    ∧ getOpt (("azure_base_version", "4") :: examplePushOptions)
          "python_version"
        = getOpt examplePushOptions "python_version"
    ∧ getOpt (("azure_base_version", "4") :: examplePushOptions)
          "image_version"
        = getOpt examplePushOptions "image_version"
    ∧ getOpt (("azure_base_version", "4") :: examplePushOptions)
          "docker_registry_url"
        = getOpt examplePushOptions "docker_registry_url")
  ∧ ((translate_image_requested
        (("azure_base_version", "4") :: examplePushOptions)).image_name
        = (translate_image_requested examplePushOptions).image_name
    ∧ (translate_image_requested
        (("azure_base_version", "4") :: examplePushOptions)).image_version
        = (translate_image_requested examplePushOptions).image_version
    ∧ (translate_image_push_requested
        (("azure_base_version", "4") :: examplePushOptions)).image_name
        = (translate_image_push_requested examplePushOptions).image_name
    ∧ (translate_image_push_requested
        (("azure_base_version", "4") :: examplePushOptions)).image_version
        = (translate_image_push_requested examplePushOptions).image_version
    ∧ (translate_image_push_requested
        (("azure_base_version", "4") :: examplePushOptions)).image_url
        = (translate_image_push_requested examplePushOptions).image_url
    ∧ DockerImagePushRequested.docker_registry_url
          (translate_image_push_requested
            (("azure_base_version", "4") :: examplePushOptions))
        = DockerImagePushRequested.docker_registry_url
            (translate_image_push_requested examplePushOptions)) :=
  ⟨⟨by decide, by decide, by decide, by decide⟩,
   first_class_fields_noninterference
     (("azure_base_version", "4") :: examplePushOptions) examplePushOptions
     (by decide) (by decide) (by decide) (by decide)⟩

end LicdataArtifactApp
